import Mathlib
/-!
Formal model of the campusrevival backend.  The definitions below are a
shallow embedding of the JavaScript source: the School adopter registry
(src/models/School.js), the User prayer streak (src/models/User.js), the
prayer-request answer transition (PATCH /prayer-requests/answer), the
School.search query, the in-memory fixed-window rate limiter
(src/lib/rateLimit.js) and the two POST /adoptions request handlers.
ObjectIds are modelled as Nat (users) or String (schools), Date values as
Nat milliseconds since the epoch, and each handler as a pure function
from its inputs and the database state to a response and a new state.
The theorems check the documented contracts against these definitions.
-/
set_option maxRecDepth 100000
namespace CampusRevival
/-- Adoption type enumeration of the adopters array in School.js
(prayer, revival or both). -/
inductive AdoptionType where
  | prayer
  | revival
  | both
deriving DecidableEq, Repr
/-- One entry of the School adopters array: userId, adoptionType,
adoptedAt (School.js lines 52-69). -/
structure Adopter where
  userId : Nat
  adoptionType : AdoptionType
  adoptedAt : Nat
deriving DecidableEq, Repr
/-- The denormalized stats subdocument of a School (School.js lines 106-111). -/
structure SchoolStats where
  totalPrayerAdoptions : Nat
  totalRevivalAdoptions : Nat
  lastAdoptedAt : Option Nat
  totalJournalEntries : Nat
deriving DecidableEq, Repr
/-- School status enumeration (School.js lines 75-80). -/
inductive SchoolStatus where
  | active
  | inactive
  | pendingReview
  | archived
deriving DecidableEq, Repr
/-- A School document, restricted to the fields the verified contracts
mention.  adoptionCount is an Int because the removeAdopter update
decrements it unconditionally, which can drive the stored value below
zero (the schema min 0 validator does not run on findByIdAndUpdate). -/
structure School where
  id : String
  name : List Char
  city : List Char
  address : List Char
  status : SchoolStatus
  featured : Bool
  adopters : List Adopter
  adoptionCount : Int
  stats : SchoolStats
deriving DecidableEq, Repr
/-- Maximum number of adopters a school can have (School.js line 4). -/
def MAX_ADOPTERS : Nat := 500
/-- School.isAdoptedByUser: whether the adopters array holds an entry for
the given user (School.js lines 171-175). -/
def School.isAdoptedByUser (s : School) (userId : Nat) : Bool :=
  s.adopters.any (fun a => a.userId == userId)
/-- Result of School.addAdopter (School.js lines 185-215): the method
returns false when the user already adopted (alreadyAdopted), throws when
the adopter list is at MAX_ADOPTERS (limitExceeded), and otherwise
returns the school updated by the push, inc and set operators. -/
inductive AddResult where
  | alreadyAdopted
  | limitExceeded
  | success (updated : School)
deriving DecidableEq, Repr
/-- School.addAdopter (School.js lines 185-215).  The single atomic
update pushes the new adopter entry, increments adoptionCount by one,
sets stats.lastAdoptedAt, and increments stats.totalPrayerAdoptions and
stats.totalRevivalAdoptions according to the adoption type. -/
def School.addAdopter (s : School) (userId : Nat) (adoptionType : AdoptionType)
    (now : Nat) : AddResult :=
  if s.isAdoptedByUser userId then .alreadyAdopted
  else if MAX_ADOPTERS ≤ s.adopters.length then .limitExceeded
  else
    .success
      { s with
        adopters := s.adopters ++ [{ userId := userId, adoptionType := adoptionType, adoptedAt := now }]
        adoptionCount := s.adoptionCount + 1
        stats :=
          { s.stats with
            totalPrayerAdoptions :=
              s.stats.totalPrayerAdoptions +
                (if adoptionType = .prayer ∨ adoptionType = .both then 1 else 0)
            totalRevivalAdoptions :=
              s.stats.totalRevivalAdoptions +
                (if adoptionType = .revival ∨ adoptionType = .both then 1 else 0)
            lastAdoptedAt := some now } }
/-- School.removeAdopter (School.js lines 223-233): a pull of every
adopter entry whose userId matches, together with an unconditional inc of
adoptionCount by minus one.  The returned Bool mirrors the
double-negated findByIdAndUpdate result, which is true whenever the
school document itself exists, regardless of whether anything was pulled
(always true in this sequential single-document model). -/
def School.removeAdopter (s : School) (userId : Nat) : Bool × School :=
  (true,
    { s with
      adopters := s.adopters.filter (fun a => !(a.userId == userId))
      adoptionCount := s.adoptionCount - 1 })
/-- The school state after an addAdopter call commits: on success the
updated document, otherwise the method returned or threw before issuing
any update, so the stored document is untouched. -/
def School.applyAdd (s : School) (userId : Nat) (t : AdoptionType) (now : Nat) : School :=
  match s.addAdopter userId t now with
  | .success s2 => s2
  | _ => s
/-- A committed adopter-list mutation: an add-adopter or remove-adopter call. -/
inductive Op where
  | add (userId : Nat) (t : AdoptionType) (now : Nat)
  | remove (userId : Nat)
deriving DecidableEq, Repr
/-- The school state after one committed operation. -/
def School.applyOp (s : School) : Op → School
  | .add u t now => s.applyAdd u t now
  | .remove u => (s.removeAdopter u).2
/-- The school state after a sequence of committed operations. -/
def School.applyOps (s : School) (ops : List Op) : School :=
  ops.foldl School.applyOp s
/-- A well-formed 24-character hex ObjectId string used by the concrete
test states. -/
def schoolId0 : String := "aaaaaaaaaaaaaaaaaaaaaaaa"
/-- A freshly created school: no adopters, zero counters. -/
def freshSchool : School :=
  { id := schoolId0
    name := ['S']
    city := ['C']
    address := ['A']
    status := .active
    featured := false
    adopters := []
    adoptionCount := 0
    stats := { totalPrayerAdoptions := 0, totalRevivalAdoptions := 0,
               lastAdoptedAt := none, totalJournalEntries := 0 } }
/-- A school whose adopters list is at the MAX_ADOPTERS capacity of 500,
with users 0 through 499. -/
def school500 : School :=
  { freshSchool with
    adopters := (List.range 500).map (fun i => { userId := i, adoptionType := .prayer, adoptedAt := 0 })
    adoptionCount := 500
    stats := { totalPrayerAdoptions := 500, totalRevivalAdoptions := 0,
               lastAdoptedAt := some 0, totalJournalEntries := 0 } }
/-- The school document produced by a successful addAdopter update. -/
def addedSchool (s : School) (u : Nat) (t : AdoptionType) (now : Nat) : School :=
  { s with
    adopters := s.adopters ++ [{ userId := u, adoptionType := t, adoptedAt := now }]
    adoptionCount := s.adoptionCount + 1
    stats :=
      { s.stats with
        totalPrayerAdoptions :=
          s.stats.totalPrayerAdoptions + (if t = .prayer ∨ t = .both then 1 else 0)
        totalRevivalAdoptions :=
          s.stats.totalRevivalAdoptions + (if t = .revival ∨ t = .both then 1 else 0)
        lastAdoptedAt := some now } }
/-- A User document, restricted to the prayer-streak fields
(src/models/User.js).  lastPrayerDate stores the full timestamp in
milliseconds, as the code stores the full Date value of now. -/
structure User where
  streakCount : Nat
  lastPrayerDate : Option Nat
deriving DecidableEq, Repr
/-- Milliseconds in one UTC calendar day. -/
def msPerDay : Nat := 86400000
/-- User.updateStreak (User.js lines 134-162).  The code compares the
UTC calendar day of now with the UTC calendar day of lastPrayerDate
(diffDays is the exact integer difference of the two UTC midnights
divided by one day): diffDays equal to 1 increments the streak, diffDays
greater than 1 resets it to 1, and otherwise (already prayed today, or a
last date in the future) the streak is kept; with no lastPrayerDate the
streak starts at 1.  lastPrayerDate is always refreshed to now. -/
def User.updateStreak (u : User) (now : Nat) : User :=
  match u.lastPrayerDate with
  | none => { streakCount := 1, lastPrayerDate := some now }
  | some last =>
    if ((now / msPerDay : Nat) : Int) - ((last / msPerDay : Nat) : Int) = 1 then
      { streakCount := u.streakCount + 1, lastPrayerDate := some now }
    else if 1 < ((now / msPerDay : Nat) : Int) - ((last / msPerDay : Nat) : Int) then
      { streakCount := 1, lastPrayerDate := some now }
    else
      { u with lastPrayerDate := some now }
/-- Whitespace recognised by the JS String.trim operation. -/
def isJsSpace (c : Char) : Bool :=
  c == ' ' || c == '\t' || c == '\n' || c == '\r' || c == '\x0b' || c == '\x0c'
/-- JS String.trim on a character list. -/
def trimChars (s : List Char) : List Char :=
  ((s.dropWhile isJsSpace).reverse.dropWhile isJsSpace).reverse
/-- Helper for the global tag regex of stripHtml: from the characters
after an opening angle bracket, drop through the first closing angle
bracket, or report none when no closing bracket follows (in which case
the regex has no match starting at that opening bracket). -/
def dropThroughGt : List Char → Option (List Char)
  | [] => none
  | c :: rest => if c == '>' then some rest else dropThroughGt rest
/-- Fuelled worker for the tag-removal pass of stripHtml
(lib/validate.js stripHtml, first replace).  The fuel starts at the
length of the input and never runs out because every step consumes at
least one character. -/
def removeTagsF : Nat → List Char → List Char
  | _, [] => []
  | 0, s => s
  | fuel + 1, c :: rest =>
    if c == '<' then
      match dropThroughGt rest with
      | some r => removeTagsF fuel r
      | none => c :: removeTagsF fuel rest
    else c :: removeTagsF fuel rest
/-- Remove every tag span (an opening angle bracket through the next
closing angle bracket) from the input, as the global tag regex of
stripHtml does. -/
def removeTags (s : List Char) : List Char := removeTagsF s.length s
/-- Fuelled worker for a global fixed-pattern replace (the entity passes
of stripHtml).  JS String.replace scans left to right without overlap. -/
def replaceSubF (pat rep : List Char) : Nat → List Char → List Char
  | _, [] => []
  | 0, s => s
  | fuel + 1, c :: rest =>
    if pat.isPrefixOf (c :: rest) then
      rep ++ replaceSubF pat rep fuel ((c :: rest).drop pat.length)
    else c :: replaceSubF pat rep fuel rest
/-- Global fixed-pattern replace on a character list. -/
def replaceSub (pat rep s : List Char) : List Char := replaceSubF pat rep s.length s
/-- lib/validate.js stripHtml: remove tag spans, decode the lt, gt and
amp entities in that order, then trim. -/
def stripHtml (s : List Char) : List Char :=
  trimChars (replaceSub ['&', 'a', 'm', 'p', ';'] ['&']
    (replaceSub ['&', 'g', 't', ';'] ['>']
      (replaceSub ['&', 'l', 't', ';'] ['<'] (removeTags s))))
/-- The note transformation of the answer handler: trim the incoming
note, strip HTML, cap at 500 characters. -/
def processAnswerNote (n : List Char) : List Char :=
  (stripHtml (trimChars n)).take 500
/-- A PrayerRequest document, restricted to the fields of the answer
transition (src/unnamed/part_001 schema, src/unnamed/part_005 handler). -/
structure PrayerRequest where
  userId : Nat
  schoolId : Nat
  content : List Char
  isAnswered : Bool
  answeredAt : Option Nat
  answerNote : Option (List Char)
deriving DecidableEq, Repr
/-- Failure of the answer transition: the acting user is neither the
creator nor a verified leader. -/
inductive AnswerError where
  | forbidden
deriving DecidableEq, Repr
/-- The document produced by the answer assignment of the PATCH
prayer-requests answer handler (src/unnamed/part_005 lines 62-68):
isAnswered is set to true and answeredAt to now unconditionally, and
answerNote is replaced by the processed note whenever a non-empty note
is supplied (JS truthiness: a missing or empty note leaves the stored
note alone). -/
def answeredDoc (pr : PrayerRequest) (note : Option (List Char)) (now : Nat) : PrayerRequest :=
  { pr with
    isAnswered := true
    answeredAt := some now
    answerNote :=
      match note with
      | some n => if n.isEmpty then pr.answerNote else some (processAnswerNote n)
      | none => pr.answerNote }
/-- The answer transition of PATCH /prayer-requests/answer
(src/unnamed/part_005): only the creator or a verified leader may mark a
request answered; there is no already-answered guard. -/
def markAnswered (pr : PrayerRequest) (actingUserId : Nat) (isLeader : Bool)
    (note : Option (List Char)) (now : Nat) : Except AnswerError PrayerRequest :=
  if !(pr.userId == actingUserId) && !isLeader then .error .forbidden
  else .ok (answeredDoc pr note now)
/-- An already-answered prayer request with a stored timestamp and note,
used as the concrete C8 state. -/
def pr8 : PrayerRequest :=
  { userId := 1, schoolId := 2, content := ['x'], isAnswered := true,
    answeredAt := some 0, answerNote := some ['o', 'l', 'd'] }
/-- Case-insensitive character equality, as the i flag of the search
regexes compares characters. -/
def eqCI (c d : Char) : Bool := c.toLower == d.toLower
/-- The metacharacters escaped by the term sanitiser of School.search
(School.js lines 266-268). -/
def regexMetaChars : List Char :=
  ['.', '*', '+', '?', '^', '$', '\x7b', '\x7d', '(', ')', '|', '[', ']', '\\']
/-- The term escaping of School.search: prefix every metacharacter with
a backslash. -/
def escapeRegex (t : List Char) : List Char :=
  t.foldr (fun c acc => if regexMetaChars.contains c then '\\' :: c :: acc else c :: acc) []
/-- Matching a regex pattern against the start of a string, for the
pattern fragment that escaping can produce plus the bare wildcard dot: a
backslash makes the following character literal, a bare dot matches any
single character, and any other character matches itself; comparison is
case-insensitive as with the i flag. -/
def matchHere : List Char → List Char → Bool
  | [], _ => true
  | c :: p, s =>
    if c == '\\' then
      match p, s with
      | c2 :: p2, d :: s2 => eqCI c2 d && matchHere p2 s2
      | _, _ => false
    else if c == '.' then
      match s with
      | _ :: s2 => matchHere p s2
      | [] => false
    else
      match s with
      | d :: s2 => eqCI c d && matchHere p s2
      | [] => false
/-- Whether the regex pattern matches somewhere in the string (the
unanchored RegExp match used by the find filter). -/
def regexTest (p : List Char) : List Char → Bool
  | [] => matchHere p []
  | s@(_ :: rest) => matchHere p s || regexTest p rest
/-- Case-insensitive prefix test. -/
def isPrefixCI : List Char → List Char → Bool
  | [], _ => true
  | _ :: _, [] => false
  | c :: t, d :: s => eqCI c d && isPrefixCI t s
/-- Case-insensitive literal substring test. -/
def substringCI (t : List Char) : List Char → Bool
  | [] => isPrefixCI t []
  | s@(_ :: rest) => isPrefixCI t s || substringCI t rest
/-- Code-point lexicographic order on character lists (the ascending
name component of the result sort). -/
def listCharLe : List Char → List Char → Bool
  | [], _ => true
  | _ :: _, [] => false
  | c :: t, d :: s => decide (c.toNat < d.toNat) || (c.toNat == d.toNat && listCharLe t s)
/-- The result ordering of School.search: adoptionCount descending, then
name ascending. -/
def schoolBefore (a b : School) : Bool :=
  decide (b.adoptionCount < a.adoptionCount) ||
    (a.adoptionCount == b.adoptionCount && listCharLe a.name b.name)
/-- Insert a school into a list sorted by schoolBefore. -/
def insertSchool (x : School) : List School → List School
  | [] => [x]
  | y :: l => if schoolBefore x y then x :: y :: l else y :: insertSchool x l
/-- Sort a school list by adoptionCount descending then name ascending
(insertion sort; the store sorts the result set the same way). -/
def sortSchools : List School → List School
  | [] => []
  | x :: l => insertSchool x (sortSchools l)
/-- The options object of School.search. -/
structure SearchOptions where
  status : Option SchoolStatus
  limit : Option Int
  page : Option Int
/-- JS or-default on a numeric option: zero is falsy, so an explicit
zero falls back to the default, as in the source. -/
def jsOrInt (o : Option Int) (d : Int) : Int :=
  match o with
  | some v => if v = 0 then d else v
  | none => d
/-- The effective limit of School.search: the or-default limit capped at
100. -/
def searchLimit (opts : SearchOptions) : Int := min (jsOrInt opts.limit 20) 100
/-- The effective page of School.search: the or-default page floored at 1. -/
def searchPage (opts : SearchOptions) : Int := max (jsOrInt opts.page 1) 1
/-- The find filter of School.search: status equals the requested status
(default active), the school is not archived (the default-scope pre-find
hook adds this), and the escaped term matches name, city or address. -/
def searchMatches (term : List Char) (st : SchoolStatus) (sc : School) : Bool :=
  sc.status == st && !(sc.status == SchoolStatus.archived) &&
    (regexTest (escapeRegex term) sc.name ||
     regexTest (escapeRegex term) sc.city ||
     regexTest (escapeRegex term) sc.address)
/-- School.search (School.js lines 259-276): filter with the escaped
term, sort by adoptionCount descending then name ascending, skip
(page-1)*limit documents and return at most limit documents. -/
def School.search (schools : List School) (term : List Char) (opts : SearchOptions) :
    List School :=
  ((sortSchools (schools.filter (searchMatches term (opts.status.getD .active)))).drop
      (((searchPage opts - 1) * searchLimit opts).toNat)).take (searchLimit opts).toNat
/-- One row of the Adoption ledger collection (models/Adoption.js),
restricted to the fields of the unique (userId, schoolId) index and the
adoption type. -/
structure LedgerRow where
  userId : Nat
  schoolId : String
  adoptionType : AdoptionType
deriving DecidableEq, Repr
/-- One fixed-window entry of the in-memory rate-limit store
(lib/rateLimit.js). -/
structure RLEntry where
  count : Nat
  resetAt : Nat
deriving DecidableEq, Repr
/-- The default window of checkRateLimit: 15 minutes in milliseconds. -/
def DEFAULT_WINDOW_MS : Nat := 900000
/-- lib/rateLimit.js checkRateLimit for one identifier: start a fresh
window when the entry is absent or expired, increment its count, and
report whether the new count is within the max, the remaining budget,
and the reset time (carried inside the returned entry). -/
def checkRateLimit (entry : Option RLEntry) (now windowMs maxReq : Nat) :
    Bool × Nat × RLEntry :=
  match entry with
  | some e =>
    if e.resetAt < now then
      (decide (1 ≤ maxReq), maxReq - 1, { count := 1, resetAt := now + windowMs })
    else
      (decide (e.count + 1 ≤ maxReq), maxReq - (e.count + 1),
        { count := e.count + 1, resetAt := e.resetAt })
  | none => (decide (1 ≤ maxReq), maxReq - 1, { count := 1, resetAt := now + windowMs })
/-- lib/validate.js isValidObjectId: exactly 24 hexadecimal characters. -/
def isHexDigit (c : Char) : Bool :=
  (decide ('0' ≤ c) && decide (c ≤ '9')) ||
  (decide ('a' ≤ c) && decide (c ≤ 'f')) ||
  (decide ('A' ≤ c) && decide (c ≤ 'F'))
/-- lib/validate.js isValidObjectId on a string value. -/
def isValidObjectId (s : String) : Bool :=
  s.length == 24 && s.toList.all isHexDigit
/-- The adoption type strings accepted by the handlers. -/
def parseAdoptionType (t : String) : Option AdoptionType :=
  if t == "prayer" then some .prayer
  else if t == "revival" then some .revival
  else if t == "both" then some .both
  else none
/-- The request body of POST /adoptions. -/
structure AdoptBody where
  schoolId : Option String
  adoptionType : Option String
deriving DecidableEq, Repr
/-- The or-default of the handlers on the adoption type: a missing or
empty (falsy) string falls back to prayer. -/
def effectiveTypeString (o : Option String) : String :=
  match o with
  | some t => if t == "" then "prayer" else t
  | none => "prayer"
/-- The observable part of a handler response: HTTP status, the
machine-readable error code of the envelope if any, the retry-after
hint if any, and the schoolStats counts of a success body. -/
structure Response where
  status : Nat
  code : Option String
  retryAfter : Option Nat
  totalAdopters : Option Nat
  adoptionCount : Option Int
deriving DecidableEq, Repr
/-- A handler result: the response plus the post-request state of the
rate-limit entry, the school collection, the adoption ledger and the
acting user. -/
structure HandlerOut where
  resp : Response
  rl : Option RLEntry
  schools : List School
  ledger : List LedgerRow
  user : User
deriving DecidableEq, Repr
/-- School.findById under the default-scope pre-find hook: the first
school with the given id that is not archived. -/
def findSchool (schools : List School) (sid : String) : Option School :=
  schools.find? (fun sc => sc.id == sid && !(sc.status == SchoolStatus.archived))
/-- The stored school collection after findByIdAndUpdate wrote the
updated document. -/
def updateSchools (schools : List School) (sid : String) (s2 : School) : List School :=
  schools.map (fun sc => if sc.id == sid then s2 else sc)
/-- Whether the ledger already holds a row for the (userId, schoolId)
pair; Adoption.create throws the duplicate-key error 11000 exactly in
this case, by the unique compound index of models/Adoption.js. -/
def ledgerHas (ledger : List LedgerRow) (uid : Nat) (sid : String) : Bool :=
  ledger.any (fun r => r.userId == uid && r.schoolId == sid)
/-- The POST /adoptions handler of src/api/journal/[id].js (lines
102-191): per-user fixed-window rate limit of 10 per 15 minutes checked
first (the 429 envelope carries only a code and message, no retry-after
field); then schoolId validation, adoption type validation, school
lookup, the already-adopted pre-check (409), the ledger insert (a lost
race surfaces as the caught duplicate error, again 409), the registry
addAdopter call, and the streak update.  When addAdopter throws (adopter
limit) the catch branch returns the generic SERVER_ERROR envelope and
the already-inserted ledger row stays.  The unreachable addAdopter
false return would produce a 201 with the fallback stale-plus-one
counts. -/
def adoptPost (now uid : Nat) (body : AdoptBody) (rl : Option RLEntry)
    (schools : List School) (ledger : List LedgerRow) (user : User) : HandlerOut :=
  if (checkRateLimit rl now DEFAULT_WINDOW_MS 10).1 then
    match body.schoolId with
    | none =>
      { resp := { status := 400, code := some "INVALID_SCHOOL_ID", retryAfter := none,
                  totalAdopters := none, adoptionCount := none },
        rl := some (checkRateLimit rl now DEFAULT_WINDOW_MS 10).2.2,
        schools := schools, ledger := ledger, user := user }
    | some sid =>
      if isValidObjectId sid then
        match parseAdoptionType (effectiveTypeString body.adoptionType) with
        | none =>
          { resp := { status := 400, code := some "INVALID_ADOPTION_TYPE", retryAfter := none,
                      totalAdopters := none, adoptionCount := none },
            rl := some (checkRateLimit rl now DEFAULT_WINDOW_MS 10).2.2,
            schools := schools, ledger := ledger, user := user }
        | some ty =>
          match findSchool schools sid with
          | none =>
            { resp := { status := 404, code := some "SCHOOL_NOT_FOUND", retryAfter := none,
                        totalAdopters := none, adoptionCount := none },
              rl := some (checkRateLimit rl now DEFAULT_WINDOW_MS 10).2.2,
              schools := schools, ledger := ledger, user := user }
          | some school =>
            if school.isAdoptedByUser uid then
              { resp := { status := 409, code := some "ALREADY_ADOPTED", retryAfter := none,
                          totalAdopters := none, adoptionCount := none },
                rl := some (checkRateLimit rl now DEFAULT_WINDOW_MS 10).2.2,
                schools := schools, ledger := ledger, user := user }
            else if ledgerHas ledger uid sid then
              { resp := { status := 409, code := some "ALREADY_ADOPTED", retryAfter := none,
                          totalAdopters := none, adoptionCount := none },
                rl := some (checkRateLimit rl now DEFAULT_WINDOW_MS 10).2.2,
                schools := schools, ledger := ledger, user := user }
            else
              match school.addAdopter uid ty now with
              | .success s2 =>
                { resp := { status := 201, code := none, retryAfter := none,
                            totalAdopters := some s2.adopters.length,
                            adoptionCount := some s2.adoptionCount },
                  rl := some (checkRateLimit rl now DEFAULT_WINDOW_MS 10).2.2,
                  schools := updateSchools schools sid s2,
                  ledger := ledger ++ [{ userId := uid, schoolId := sid, adoptionType := ty }],
                  user := user.updateStreak now }
              | .alreadyAdopted =>
                { resp := { status := 201, code := none, retryAfter := none,
                            totalAdopters := some (school.adopters.length + 1),
                            adoptionCount := some (school.adoptionCount + 1) },
                  rl := some (checkRateLimit rl now DEFAULT_WINDOW_MS 10).2.2,
                  schools := schools,
                  ledger := ledger ++ [{ userId := uid, schoolId := sid, adoptionType := ty }],
                  user := user.updateStreak now }
              | .limitExceeded =>
                { resp := { status := 500, code := some "SERVER_ERROR", retryAfter := none,
                            totalAdopters := none, adoptionCount := none },
                  rl := some (checkRateLimit rl now DEFAULT_WINDOW_MS 10).2.2,
                  schools := schools,
                  ledger := ledger ++ [{ userId := uid, schoolId := sid, adoptionType := ty }],
                  user := user }
      else
        { resp := { status := 400, code := some "INVALID_SCHOOL_ID", retryAfter := none,
                    totalAdopters := none, adoptionCount := none },
          rl := some (checkRateLimit rl now DEFAULT_WINDOW_MS 10).2.2,
          schools := schools, ledger := ledger, user := user }
  else
    { resp := { status := 429, code := some "RATE_LIMIT_EXCEEDED", retryAfter := none,
                totalAdopters := none, adoptionCount := none },
      rl := some (checkRateLimit rl now DEFAULT_WINDOW_MS 10).2.2,
      schools := schools, ledger := ledger, user := user }
/-- The POST /adoptions handler of src/api/adoptions/index.js (lines
29-79): it consults no rate limiter at all (the rl argument is taken
only so the independence of the result from the rate-limit state can be
stated, and the output rl is none because the handler never touches the
store).  Error responses carry a plain message string, so no
machine-readable code is modelled; the already-adopted branch and the
caught duplicate error return status 400, and a malformed id makes
findById throw a cast error, caught as a generic 500.  The 201 body
echoes the stale pre-update counts of the in-memory document. -/
def adoptPostLegacy (now uid : Nat) (body : AdoptBody) (rl : Option RLEntry)
    (schools : List School) (ledger : List LedgerRow) (user : User) : HandlerOut :=
  match body.schoolId with
  | none =>
    { resp := { status := 400, code := none, retryAfter := none,
                totalAdopters := none, adoptionCount := none },
      rl := none, schools := schools, ledger := ledger, user := user }
  | some sid =>
    if sid == "" then
      { resp := { status := 400, code := none, retryAfter := none,
                  totalAdopters := none, adoptionCount := none },
        rl := none, schools := schools, ledger := ledger, user := user }
    else
      match parseAdoptionType (effectiveTypeString body.adoptionType) with
      | none =>
        { resp := { status := 400, code := none, retryAfter := none,
                    totalAdopters := none, adoptionCount := none },
          rl := none, schools := schools, ledger := ledger, user := user }
      | some ty =>
        if isValidObjectId sid then
          match findSchool schools sid with
          | none =>
            { resp := { status := 404, code := none, retryAfter := none,
                        totalAdopters := none, adoptionCount := none },
              rl := none, schools := schools, ledger := ledger, user := user }
          | some school =>
            if school.isAdoptedByUser uid then
              { resp := { status := 400, code := none, retryAfter := none,
                          totalAdopters := none, adoptionCount := none },
                rl := none, schools := schools, ledger := ledger, user := user }
            else if ledgerHas ledger uid sid then
              { resp := { status := 400, code := none, retryAfter := none,
                          totalAdopters := none, adoptionCount := none },
                rl := none, schools := schools, ledger := ledger, user := user }
            else
              match school.addAdopter uid ty now with
              | .success s2 =>
                { resp := { status := 201, code := none, retryAfter := none,
                            totalAdopters := some school.adopters.length,
                            adoptionCount := some school.adoptionCount },
                  rl := none, schools := updateSchools schools sid s2,
                  ledger := ledger ++ [{ userId := uid, schoolId := sid, adoptionType := ty }],
                  user := user.updateStreak now }
              | .alreadyAdopted =>
                { resp := { status := 201, code := none, retryAfter := none,
                            totalAdopters := some school.adopters.length,
                            adoptionCount := some school.adoptionCount },
                  rl := none, schools := schools,
                  ledger := ledger ++ [{ userId := uid, schoolId := sid, adoptionType := ty }],
                  user := user.updateStreak now }
              | .limitExceeded =>
                { resp := { status := 500, code := none, retryAfter := none,
                            totalAdopters := none, adoptionCount := none },
                  rl := none, schools := schools,
                  ledger := ledger ++ [{ userId := uid, schoolId := sid, adoptionType := ty }],
                  user := user }
        else
          { resp := { status := 500, code := none, retryAfter := none,
                      totalAdopters := none, adoptionCount := none },
            rl := none, schools := schools, ledger := ledger, user := user }
/-- A concrete well-formed adoption request body targeting the fresh
school with type prayer. -/
def body0 : AdoptBody := { schoolId := some schoolId0, adoptionType := some "prayer" }
/-- A fresh user with no streak. -/
def user0 : User := { streakCount := 0, lastPrayerDate := none }
/-- A rate-limit entry that has already used the whole 10-request
adoption budget of its window. -/
def rl10 : RLEntry := { count := 10, resetAt := 1000000000 }
/-- C1: the claimed invariant adoptionCount = length of adopters fails on
the code.  A single committed remove-adopter operation for a user who
never adopted a fresh school pulls nothing from the adopters list yet
still decrements the stored adoptionCount, leaving it at minus one while
the list is empty. -/
theorem c1_adoptionCount_drifts_after_remove :
    (freshSchool.applyOps [Op.remove 7]).adoptionCount = -1 ∧
    (freshSchool.applyOps [Op.remove 7]).adopters.length = 0 ∧
    (freshSchool.applyOps [Op.remove 7]).adoptionCount ≠
      ((freshSchool.applyOps [Op.remove 7]).adopters.length : Int) := by
  decide
/-- C4: removeAdopter for a user who is not present performs no removal,
yet the code still decrements adoptionCount (from 0 to -1, past zero) and
still reports true, because the returned Bool only witnesses that the
school document exists, not that a removal occurred. -/
theorem c4_removeAdopter_not_present_decrements :
    (freshSchool.removeAdopter 7).1 = true ∧
    (freshSchool.removeAdopter 7).2.adopters = [] ∧
    (freshSchool.removeAdopter 7).2.adoptionCount = -1 := by
  decide
/-- When the user has not adopted yet and the list is below capacity,
addAdopter commits the single push-inc-set update. -/
theorem addAdopter_success_eq (s : School) (u : Nat) (t : AdoptionType) (now : Nat)
    (hnot : s.isAdoptedByUser u = false)
    (hcap : s.adopters.length < MAX_ADOPTERS) :
    s.addAdopter u t now = .success (addedSchool s u t now) := by
  rw [School.addAdopter, if_neg (by simp [hnot]), if_neg (Nat.not_le.mpr hcap)]
  rfl
/-- When the user has not adopted yet and the list is at capacity,
addAdopter throws before issuing any update. -/
theorem addAdopter_limit_eq (s : School) (u : Nat) (t : AdoptionType) (now : Nat)
    (hnot : s.isAdoptedByUser u = false)
    (hfull : MAX_ADOPTERS ≤ s.adopters.length) :
    s.addAdopter u t now = .limitExceeded := by
  rw [School.addAdopter, if_neg (by simp [hnot]), if_pos hfull]
/-- C2: a successful add-adopter appends exactly one entry with the given
user, type and timestamp, increments adoptionCount by exactly one,
increments stats.totalPrayerAdoptions by one exactly when the type is
prayer or both, increments stats.totalRevivalAdoptions by one exactly
when the type is revival or both, sets stats.lastAdoptedAt to now, and
leaves every other field of the school unchanged. -/
theorem c2_addAdopter_success_contract (s : School) (u : Nat) (t : AdoptionType) (now : Nat)
    (hnot : s.isAdoptedByUser u = false)
    (hcap : s.adopters.length < MAX_ADOPTERS) :
    s.addAdopter u t now = .success (s.applyAdd u t now) ∧
    (s.applyAdd u t now).adopters =
      s.adopters ++ [{ userId := u, adoptionType := t, adoptedAt := now }] ∧
    (s.applyAdd u t now).adoptionCount = s.adoptionCount + 1 ∧
    (s.applyAdd u t now).stats.totalPrayerAdoptions =
      s.stats.totalPrayerAdoptions + (if t = .prayer ∨ t = .both then 1 else 0) ∧
    (s.applyAdd u t now).stats.totalRevivalAdoptions =
      s.stats.totalRevivalAdoptions + (if t = .revival ∨ t = .both then 1 else 0) ∧
    (s.applyAdd u t now).stats.lastAdoptedAt = some now ∧
    (s.applyAdd u t now).stats.totalJournalEntries = s.stats.totalJournalEntries ∧
    (s.applyAdd u t now).id = s.id ∧
    (s.applyAdd u t now).name = s.name ∧
    (s.applyAdd u t now).city = s.city ∧
    (s.applyAdd u t now).address = s.address ∧
    (s.applyAdd u t now).status = s.status ∧
    (s.applyAdd u t now).featured = s.featured := by
  have hadd := addAdopter_success_eq s u t now hnot hcap
  have happ : s.applyAdd u t now = addedSchool s u t now := by
    rw [School.applyAdd, hadd]
  rw [happ, hadd]
  exact ⟨rfl, rfl, rfl, rfl, rfl, rfl, rfl, rfl, rfl, rfl, rfl, rfl, rfl⟩
/-- Witness for C2 at a concrete input: user 3 adopting the fresh school
with type both at time 11. -/
theorem c2_addAdopter_success_contract_witness :
    freshSchool.addAdopter 3 .both 11 = .success (freshSchool.applyAdd 3 .both 11) ∧
    (freshSchool.applyAdd 3 .both 11).adopters =
      freshSchool.adopters ++ [{ userId := 3, adoptionType := .both, adoptedAt := 11 }] ∧
    (freshSchool.applyAdd 3 .both 11).adoptionCount = freshSchool.adoptionCount + 1 ∧
    (freshSchool.applyAdd 3 .both 11).stats.totalPrayerAdoptions =
      freshSchool.stats.totalPrayerAdoptions +
        (if AdoptionType.both = .prayer ∨ AdoptionType.both = .both then 1 else 0) ∧
    (freshSchool.applyAdd 3 .both 11).stats.totalRevivalAdoptions =
      freshSchool.stats.totalRevivalAdoptions +
        (if AdoptionType.both = .revival ∨ AdoptionType.both = .both then 1 else 0) ∧
    (freshSchool.applyAdd 3 .both 11).stats.lastAdoptedAt = some 11 ∧
    (freshSchool.applyAdd 3 .both 11).stats.totalJournalEntries =
      freshSchool.stats.totalJournalEntries ∧
    (freshSchool.applyAdd 3 .both 11).id = freshSchool.id ∧
    (freshSchool.applyAdd 3 .both 11).name = freshSchool.name ∧
    (freshSchool.applyAdd 3 .both 11).city = freshSchool.city ∧
    (freshSchool.applyAdd 3 .both 11).address = freshSchool.address ∧
    (freshSchool.applyAdd 3 .both 11).status = freshSchool.status ∧
    (freshSchool.applyAdd 3 .both 11).featured = freshSchool.featured :=
  c2_addAdopter_success_contract freshSchool 3 .both 11 (by decide) (by decide)
/-- C5: adding a new distinct user to a school whose adopters list
already holds MAX_ADOPTERS entries throws the limit error before any
update is issued, so the committed school state, and in particular its
adoptionCount of 500, is unchanged. -/
theorem c5_addAdopter_capacity (s : School) (u : Nat) (t : AdoptionType) (now : Nat)
    (hnot : s.isAdoptedByUser u = false)
    (hfull : s.adopters.length = MAX_ADOPTERS)
    (hcount : s.adoptionCount = 500) :
    s.addAdopter u t now = .limitExceeded ∧
    s.applyAdd u t now = s ∧
    (s.applyAdd u t now).adoptionCount = 500 := by
  have hadd := addAdopter_limit_eq s u t now hnot (Nat.le_of_eq hfull.symm)
  have happ : s.applyAdd u t now = s := by
    rw [School.applyAdd, hadd]
  exact ⟨hadd, happ, by rw [happ, hcount]⟩
/-- Witness for C5 at a concrete input: user 600 attempting to adopt the
school that already has the 500 adopters 0 through 499. -/
theorem c5_addAdopter_capacity_witness :
    school500.addAdopter 600 .prayer 3 = .limitExceeded ∧
    school500.applyAdd 600 .prayer 3 = school500 ∧
    (school500.applyAdd 600 .prayer 3).adoptionCount = 500 :=
  c5_addAdopter_capacity school500 600 .prayer 3 (by decide) (by decide) (by decide)
/-- After any updateStreak call the stored lastPrayerDate is the call time. -/
theorem updateStreak_lastPrayerDate (u : User) (now : Nat) :
    (u.updateStreak now).lastPrayerDate = some now := by
  unfold User.updateStreak
  cases u.lastPrayerDate with
  | none => rfl
  | some last =>
    dsimp only
    split
    · rfl
    · split
      · rfl
      · rfl
/-- C10: updateStreak is idempotent within a UTC calendar day (a second
call on the same UTC day keeps streakCount and merely refreshes
lastPrayerDate to the new time); on any reachable user state (one whose
streak is already positive whenever lastPrayerDate is set, true of fresh
users and preserved by every call) the call leaves streakCount at least
1; a consecutive-day call increments the streak by exactly one; and a
gap of more than one day resets it to exactly one. -/
theorem c10_updateStreak_contract (u : User) (now now2 : Nat)
    (hinv : ∀ last, u.lastPrayerDate = some last → 1 ≤ u.streakCount) :
    1 ≤ (u.updateStreak now).streakCount ∧
    (now2 / msPerDay = now / msPerDay →
      ((u.updateStreak now).updateStreak now2).streakCount = (u.updateStreak now).streakCount ∧
      ((u.updateStreak now).updateStreak now2).lastPrayerDate = some now2) ∧
    (∀ last, u.lastPrayerDate = some last →
      ((now / msPerDay : Nat) : Int) = ((last / msPerDay : Nat) : Int) + 1 →
      (u.updateStreak now).streakCount = u.streakCount + 1) ∧
    (∀ last, u.lastPrayerDate = some last →
      ((last / msPerDay : Nat) : Int) + 1 < ((now / msPerDay : Nat) : Int) →
      (u.updateStreak now).streakCount = 1) := by
  refine ⟨?_, ?_, ?_, ?_⟩
  · unfold User.updateStreak
    cases h : u.lastPrayerDate with
    | none => exact Nat.le_refl 1
    | some last =>
      have h1 := hinv last h
      dsimp only
      split
      · exact Nat.le_add_right_of_le h1
      · split
        · exact Nat.le_refl 1
        · exact h1
  · intro hday
    have hl : (u.updateStreak now).lastPrayerDate = some now :=
      updateStreak_lastPrayerDate u now
    generalize hv : u.updateStreak now = v at hl ⊢
    unfold User.updateStreak
    rw [hl]
    dsimp only
    rw [if_neg (by omega), if_neg (by omega)]
    exact ⟨rfl, rfl⟩
  · intro last h hdiff
    unfold User.updateStreak
    rw [h]
    dsimp only
    rw [if_pos (by omega)]
  · intro last h hdiff
    unfold User.updateStreak
    rw [h]
    dsimp only
    rw [if_neg (by omega), if_pos (by omega)]
/-- Witness for C10 at concrete inputs: a user whose streak is 1 with a
last prayer on UTC day 0, updated at the start of day 1 and again five
milliseconds later on the same day. -/
theorem c10_updateStreak_contract_witness :
    1 ≤ ((⟨1, some 0⟩ : User).updateStreak 86400000).streakCount ∧
    (86400005 / msPerDay = 86400000 / msPerDay →
      (((⟨1, some 0⟩ : User).updateStreak 86400000).updateStreak 86400005).streakCount =
        ((⟨1, some 0⟩ : User).updateStreak 86400000).streakCount ∧
      (((⟨1, some 0⟩ : User).updateStreak 86400000).updateStreak 86400005).lastPrayerDate =
        some 86400005) ∧
    (∀ last, (⟨1, some 0⟩ : User).lastPrayerDate = some last →
      ((86400000 / msPerDay : Nat) : Int) = ((last / msPerDay : Nat) : Int) + 1 →
      ((⟨1, some 0⟩ : User).updateStreak 86400000).streakCount =
        (⟨1, some 0⟩ : User).streakCount + 1) ∧
    (∀ last, (⟨1, some 0⟩ : User).lastPrayerDate = some last →
      ((last / msPerDay : Nat) : Int) + 1 < ((86400000 / msPerDay : Nat) : Int) →
      ((⟨1, some 0⟩ : User).updateStreak 86400000).streakCount = 1) :=
  c10_updateStreak_contract ⟨1, some 0⟩ 86400000 86400005
    (by intro last h; exact Nat.le_refl 1)
/-- C8 counterexample: re-answering an already-answered request by its
owner succeeds, but the stored answeredAt timestamp is overwritten with
the new time and the stored note is overwritten with the new note,
contrary to the claim that neither is overwritten. -/
theorem c8_counterexample_overwrites :
    markAnswered pr8 1 false (some ['n', 'e', 'w']) 5 =
      .ok { pr8 with answeredAt := some 5, answerNote := some ['n', 'e', 'w'] } ∧
    pr8.answeredAt = some 0 ∧
    pr8.answerNote = some ['o', 'l', 'd'] ∧
    (some 5 : Option Nat) ≠ some 0 ∧
    (some ['n', 'e', 'w'] : Option (List Char)) ≠ some ['o', 'l', 'd'] :=
  ⟨rfl, rfl, rfl, by decide, by decide⟩
/-- C8 amended: an authorized mark-answered call on an already-answered
request succeeds without error, but it overwrites answeredAt with the
current time, overwrites answerNote with the processed note whenever a
non-empty note is supplied (keeping the stored note only when the note
is missing or empty), keeps isAnswered true, and leaves the identity
fields unchanged. -/
theorem c8_markAnswered_amended (pr : PrayerRequest) (actingUserId : Nat) (isLeader : Bool)
    (note : Option (List Char)) (now : Nat)
    (hauth : pr.userId = actingUserId ∨ isLeader = true) :
    markAnswered pr actingUserId isLeader note now = .ok (answeredDoc pr note now) ∧
    (answeredDoc pr note now).isAnswered = true ∧
    (answeredDoc pr note now).answeredAt = some now ∧
    (note = none → (answeredDoc pr note now).answerNote = pr.answerNote) ∧
    (∀ n, note = some n → n.isEmpty = true →
      (answeredDoc pr note now).answerNote = pr.answerNote) ∧
    (∀ n, note = some n → n.isEmpty = false →
      (answeredDoc pr note now).answerNote = some (processAnswerNote n)) ∧
    (answeredDoc pr note now).userId = pr.userId ∧
    (answeredDoc pr note now).schoolId = pr.schoolId ∧
    (answeredDoc pr note now).content = pr.content := by
  refine ⟨?_, rfl, rfl, ?_, ?_, ?_, rfl, rfl, rfl⟩
  · rw [markAnswered, if_neg]
    rcases hauth with h | h
    · simp [h]
    · simp [h]
  · intro h
    rw [h]
    rfl
  · intro n hn hempty
    rw [hn]
    simp only [answeredDoc, hempty]
    rfl
  · intro n hn hempty
    rw [hn]
    simp only [answeredDoc, hempty]
    rfl
/-- Witness for the C8 amended theorem at the concrete C8 state: the
owner re-answers the already-answered request with a new note. -/
theorem c8_markAnswered_amended_witness :
    markAnswered pr8 1 false (some ['n', 'e', 'w']) 5 =
      .ok (answeredDoc pr8 (some ['n', 'e', 'w']) 5) ∧
    (answeredDoc pr8 (some ['n', 'e', 'w']) 5).isAnswered = true ∧
    (answeredDoc pr8 (some ['n', 'e', 'w']) 5).answeredAt = some 5 ∧
    ((some ['n', 'e', 'w'] : Option (List Char)) = none →
      (answeredDoc pr8 (some ['n', 'e', 'w']) 5).answerNote = pr8.answerNote) ∧
    (∀ n, (some ['n', 'e', 'w'] : Option (List Char)) = some n → n.isEmpty = true →
      (answeredDoc pr8 (some ['n', 'e', 'w']) 5).answerNote = pr8.answerNote) ∧
    (∀ n, (some ['n', 'e', 'w'] : Option (List Char)) = some n → n.isEmpty = false →
      (answeredDoc pr8 (some ['n', 'e', 'w']) 5).answerNote = some (processAnswerNote n)) ∧
    (answeredDoc pr8 (some ['n', 'e', 'w']) 5).userId = pr8.userId ∧
    (answeredDoc pr8 (some ['n', 'e', 'w']) 5).schoolId = pr8.schoolId ∧
    (answeredDoc pr8 (some ['n', 'e', 'w']) 5).content = pr8.content :=
  c8_markAnswered_amended pr8 1 false (some ['n', 'e', 'w']) 5 (Or.inl rfl)
/-- Matching an escaped term at the start of a string is exactly the
case-insensitive literal prefix test: escaping removes every
metacharacter meaning. -/
theorem matchHere_escape (t : List Char) : ∀ s, matchHere (escapeRegex t) s = isPrefixCI t s := by
  induction t with
  | nil => intro s; rfl
  | cons c t ih =>
    intro s
    show matchHere (if regexMetaChars.contains c then '\\' :: c :: escapeRegex t
      else c :: escapeRegex t) s = isPrefixCI (c :: t) s
    by_cases hm : regexMetaChars.contains c = true
    · rw [if_pos hm]
      cases s with
      | nil => rfl
      | cons d s2 =>
        show (eqCI c d && matchHere (escapeRegex t) s2) = (eqCI c d && isPrefixCI t s2)
        rw [ih s2]
    · rw [if_neg hm]
      have hb1 : (c == '\\') = false := by
        cases hcc : c == '\\' with
        | false => rfl
        | true =>
          have e : c = '\\' := eq_of_beq hcc
          rw [e] at hm
          exact absurd (by decide : regexMetaChars.contains '\\' = true) hm
      have hb2 : (c == '.') = false := by
        cases hcc : c == '.' with
        | false => rfl
        | true =>
          have e : c = '.' := eq_of_beq hcc
          rw [e] at hm
          exact absurd (by decide : regexMetaChars.contains '.' = true) hm
      cases s with
      | nil =>
        conv_lhs => rw [matchHere.eq_def]
        dsimp only
        rw [hb1, hb2]
        simp only [Bool.false_eq_true, if_false]
        rfl
      | cons d s2 =>
        conv_lhs => rw [matchHere.eq_def]
        dsimp only
        rw [hb1, hb2]
        simp only [Bool.false_eq_true, if_false]
        rw [ih s2]
        rfl
/-- Testing an escaped term anywhere in a string is exactly the
case-insensitive literal substring test. -/
theorem regexTest_escape (t : List Char) : ∀ s, regexTest (escapeRegex t) s = substringCI t s := by
  intro s
  induction s with
  | nil => show matchHere (escapeRegex t) [] = isPrefixCI t []; exact matchHere_escape t []
  | cons d s2 ih =>
    show (matchHere (escapeRegex t) (d :: s2) || regexTest (escapeRegex t) s2) =
      (isPrefixCI t (d :: s2) || substringCI t s2)
    rw [matchHere_escape t (d :: s2), ih]
theorem listCharLe_total : ∀ a b, listCharLe a b = true ∨ listCharLe b a = true := by
  intro a
  induction a with
  | nil => intro b; exact Or.inl rfl
  | cons c t ih =>
    intro b
    cases b with
    | nil => exact Or.inr rfl
    | cons d s =>
      show (decide (c.toNat < d.toNat) || (c.toNat == d.toNat && listCharLe t s)) = true ∨
        (decide (d.toNat < c.toNat) || (d.toNat == c.toNat && listCharLe s t)) = true
      rcases Nat.lt_trichotomy c.toNat d.toNat with h | h | h
      · left; rw [decide_eq_true h]; rfl
      · rcases ih s with h2 | h2
        · left
          rw [h, Bool.or_eq_true]
          right
          rw [Bool.and_eq_true]
          exact ⟨beq_self_eq_true _, h2⟩
        · right
          rw [Bool.or_eq_true]
          right
          rw [Bool.and_eq_true, h]
          exact ⟨beq_self_eq_true _, h2⟩
      · right; rw [decide_eq_true h]; rfl
theorem listCharLe_trans : ∀ a b c, listCharLe a b = true → listCharLe b c = true →
    listCharLe a c = true := by
  intro a
  induction a with
  | nil => intro b c _ _; rfl
  | cons x t ih =>
    intro b c hab hbc
    cases b with
    | nil => exact absurd hab (by simp [listCharLe])
    | cons y u =>
      cases c with
      | nil => exact absurd hbc (by simp [listCharLe])
      | cons z v =>
        rw [listCharLe, Bool.or_eq_true, Bool.and_eq_true] at hab hbc ⊢
        rcases hab with hab | ⟨hab1, hab2⟩ <;> rcases hbc with hbc | ⟨hbc1, hbc2⟩
        · left; rw [decide_eq_true_eq] at *; omega
        · left
          have e2 : y.toNat = z.toNat := by simpa using hbc1
          rw [decide_eq_true_eq] at *
          omega
        · left
          have e1 : x.toNat = y.toNat := by simpa using hab1
          rw [decide_eq_true_eq] at *
          omega
        · right
          have e1 : x.toNat = y.toNat := by simpa using hab1
          have e2 : y.toNat = z.toNat := by simpa using hbc1
          refine ⟨?_, ih u v hab2 hbc2⟩
          rw [e1, e2]
          exact beq_self_eq_true _
theorem schoolBefore_total (a b : School) : schoolBefore a b = true ∨ schoolBefore b a = true := by
  rw [schoolBefore, schoolBefore, Bool.or_eq_true, Bool.or_eq_true,
    Bool.and_eq_true, Bool.and_eq_true]
  rcases Int.lt_trichotomy a.adoptionCount b.adoptionCount with h | h | h
  · right; left; exact decide_eq_true h
  · rcases listCharLe_total a.name b.name with h2 | h2
    · left; right; exact ⟨by rw [h]; exact beq_self_eq_true _, h2⟩
    · right; right; exact ⟨by rw [h]; exact beq_self_eq_true _, h2⟩
  · left; left; exact decide_eq_true h
theorem schoolBefore_trans (a b c : School) (hab : schoolBefore a b = true)
    (hbc : schoolBefore b c = true) : schoolBefore a c = true := by
  rw [schoolBefore, Bool.or_eq_true, Bool.and_eq_true] at hab hbc ⊢
  have int_eq : ∀ x y : Int, (x == y) = true → x = y := fun x y h => by
    simpa using h
  rcases hab with hab | ⟨hab1, hab2⟩ <;> rcases hbc with hbc | ⟨hbc1, hbc2⟩
  · left; rw [decide_eq_true_eq] at *; omega
  · left
    have := int_eq _ _ hbc1
    rw [decide_eq_true_eq] at *
    omega
  · left
    have := int_eq _ _ hab1
    rw [decide_eq_true_eq] at *
    omega
  · right
    have e1 := int_eq _ _ hab1
    have e2 := int_eq _ _ hbc1
    refine ⟨?_, listCharLe_trans _ _ _ hab2 hbc2⟩
    rw [e1, e2]
    exact beq_self_eq_true _
theorem mem_insertSchool {a x : School} : ∀ {l : List School},
    a ∈ insertSchool x l ↔ a = x ∨ a ∈ l := by
  intro l
  induction l with
  | nil => simp [insertSchool]
  | cons y l ih =>
    rw [insertSchool]
    split
    · simp [List.mem_cons]
    · rw [List.mem_cons, ih, List.mem_cons]
      tauto
theorem mem_sortSchools {a : School} : ∀ {l : List School}, a ∈ sortSchools l ↔ a ∈ l := by
  intro l
  induction l with
  | nil => simp [sortSchools]
  | cons x l ih => rw [sortSchools, mem_insertSchool, ih, List.mem_cons]
theorem pairwise_insertSchool (x : School) : ∀ (l : List School),
    l.Pairwise (fun a b => schoolBefore a b = true) →
    (insertSchool x l).Pairwise (fun a b => schoolBefore a b = true) := by
  intro l
  induction l with
  | nil => intro _; simp [insertSchool]
  | cons y l ih =>
    intro h
    rcases List.pairwise_cons.mp h with ⟨hy, hl⟩
    rw [insertSchool]
    by_cases hxy : schoolBefore x y = true
    · rw [if_pos hxy]
      refine List.Pairwise.cons ?_ h
      intro b hb
      rcases List.mem_cons.mp hb with rfl | hb
      · exact hxy
      · exact schoolBefore_trans x y b hxy (hy b hb)
    · rw [if_neg hxy]
      refine List.Pairwise.cons ?_ (ih hl)
      intro b hb
      rcases mem_insertSchool.mp hb with rfl | hb
      · rcases schoolBefore_total b y with h2 | h2
        · exact absurd h2 hxy
        · exact h2
      · exact hy b hb
theorem pairwise_sortSchools : ∀ (l : List School),
    (sortSchools l).Pairwise (fun a b => schoolBefore a b = true) := by
  intro l
  induction l with
  | nil => exact List.Pairwise.nil
  | cons x l ih => exact pairwise_insertSchool x (sortSchools l) ih
/-- C7: School.search matches the term as a case-insensitive literal
substring of name, city or address (regex metacharacters escaped, so an
unescaped wildcard reading is impossible); the result is sorted by
adoptionCount descending then name ascending; the effective limit is
capped at 100, the effective page floored at 1, and at most limit
results are returned. -/
theorem c7_search_contract (schools : List School) (term : List Char) (opts : SearchOptions) :
    (∀ s, regexTest (escapeRegex term) s = substringCI term s) ∧
    searchLimit opts ≤ 100 ∧
    1 ≤ searchPage opts ∧
    (School.search schools term opts).length ≤ (searchLimit opts).toNat ∧
    (School.search schools term opts).Pairwise (fun a b => schoolBefore a b = true) ∧
    (∀ sc, sc ∈ School.search schools term opts →
      sc.status = opts.status.getD .active ∧
      (substringCI term sc.name = true ∨ substringCI term sc.city = true ∨
        substringCI term sc.address = true)) := by
  refine ⟨regexTest_escape term, min_le_right _ _, le_max_right _ _, ?_, ?_, ?_⟩
  · exact List.length_take_le _ _
  · have hsub : List.Sublist (School.search schools term opts)
        (sortSchools (schools.filter (searchMatches term (opts.status.getD .active)))) :=
      (List.take_sublist _ _).trans (List.drop_sublist _ _)
    exact List.Pairwise.sublist hsub (pairwise_sortSchools _)
  · intro sc hsc
    have hsub : List.Sublist (School.search schools term opts)
        (sortSchools (schools.filter (searchMatches term (opts.status.getD .active)))) :=
      (List.take_sublist _ _).trans (List.drop_sublist _ _)
    have hmem : sc ∈ schools.filter (searchMatches term (opts.status.getD .active)) :=
      mem_sortSchools.mp (hsub.subset hsc)
    have hmatch : searchMatches term (opts.status.getD .active) sc = true :=
      (List.mem_filter.mp hmem).2
    rw [searchMatches, Bool.and_eq_true, Bool.and_eq_true, Bool.or_eq_true, Bool.or_eq_true]
      at hmatch
    rcases hmatch with ⟨⟨hst, _⟩, hor⟩
    refine ⟨by simpa using hst, ?_⟩
    rw [regexTest_escape, regexTest_escape, regexTest_escape] at hor
    tauto
/-- Witness for C7 at concrete inputs: the escaped term a dot b does not
match a x b (no wildcard semantics) but does match where a dot b
literally appears, while the unescaped pattern would match a x b via the
wildcard. -/
theorem c7_search_contract_witness :
    regexTest (escapeRegex ['a', '.', 'b']) ['a', 'x', 'b'] = false ∧
    regexTest (escapeRegex ['a', '.', 'b']) ['z', 'a', '.', 'b'] = true ∧
    regexTest ['a', '.', 'b'] ['a', 'x', 'b'] = true := by
  have h := (c7_search_contract [] ['a', '.', 'b'] ⟨none, none, none⟩).1
  exact ⟨(h ['a', 'x', 'b']).trans (by decide),
    (h ['z', 'a', '.', 'b']).trans (by decide), by decide⟩
/-- A found school satisfies the find filter: its id matches and it is
not archived. -/
theorem findSchool_pred {schools : List School} {sid : String} {school : School}
    (h : findSchool schools sid = some school) :
    (school.id == sid) = true ∧ (school.status == SchoolStatus.archived) = false := by
  have h2 := List.find?_some h
  rw [Bool.and_eq_true, Bool.not_eq_true'] at h2
  exact h2
/-- After findByIdAndUpdate stores the updated document (same id, not
archived), findById on the stored collection returns the updated
document. -/
theorem findSchool_updateSchools : ∀ (schools : List School) (sid : String) (school s2 : School),
    findSchool schools sid = some school → s2.id = school.id →
    (s2.status == SchoolStatus.archived) = false →
    findSchool (updateSchools schools sid s2) sid = some s2 := by
  intro schools
  induction schools with
  | nil => intro sid school s2 h _ _; simp [findSchool] at h
  | cons sc l ih =>
    intro sid school s2 h hid hst
    have hid2 : (s2.id == sid) = true := by
      rw [hid]; exact (findSchool_pred h).1
    have hpred2 : (s2.id == sid && !(s2.status == SchoolStatus.archived)) = true := by
      rw [hid2, hst]; rfl
    by_cases hsc : (sc.id == sid) = true
    · have hhead : (if sc.id == sid then s2 else sc) = s2 := by rw [hsc]; rfl
      rw [updateSchools, List.map_cons, hhead, findSchool]
      exact List.find?_cons_of_pos _ hpred2
    · have hscf : (sc.id == sid) = false := by
        cases hcc : sc.id == sid with
        | false => rfl
        | true => exact absurd hcc hsc
      have hhead : (if sc.id == sid then s2 else sc) = sc := by rw [hscf]; rfl
      have hpredf : (sc.id == sid && !(sc.status == SchoolStatus.archived)) = false := by
        rw [hscf]
        rfl
      have h' : findSchool l sid = some school := by
        rw [findSchool] at h ⊢
        rw [List.find?_cons] at h
        simp only [hpredf] at h
        exact h
      have := ih sid school s2 h' hid hst
      rw [findSchool, updateSchools] at this
      rw [updateSchools, List.map_cons, hhead, findSchool, List.find?_cons]
      simp only [hpredf]
      exact this
/-- The adopter entry appended by addAdopter makes the user an adopter
of the updated document. -/
theorem isAdoptedByUser_addedSchool (s : School) (u : Nat) (t : AdoptionType) (now : Nat) :
    (addedSchool s u t now).isAdoptedByUser u = true := by
  show (s.adopters ++ [({ userId := u, adoptionType := t, adoptedAt := now } : Adopter)]).any
    (fun a => a.userId == u) = true
  rw [List.any_append]
  simp
/-- C3: add-adopter for a user already present in the adopters list
reports the already-adopted outcome and performs no mutation; and at the
endpoint level, after a first POST /adoptions succeeds (status 201) an
immediate repeat of the same request by the same user yields status 409
with error code ALREADY_ADOPTED and changes neither the school
collection (in particular the stored adoptionCount) nor the ledger. -/
theorem c3_already_adopted_conflict :
    (∀ (s : School) (u : Nat) (t : AdoptionType) (now : Nat),
      s.isAdoptedByUser u = true → s.addAdopter u t now = AddResult.alreadyAdopted) ∧
    (∀ (now now2 uid : Nat) (body : AdoptBody) (rl rl2 : Option RLEntry)
        (schools : List School) (ledger : List LedgerRow) (user user2 : User)
        (sid : String) (ty : AdoptionType) (school : School),
      (checkRateLimit rl now DEFAULT_WINDOW_MS 10).1 = true →
      (checkRateLimit rl2 now2 DEFAULT_WINDOW_MS 10).1 = true →
      body.schoolId = some sid →
      isValidObjectId sid = true →
      parseAdoptionType (effectiveTypeString body.adoptionType) = some ty →
      findSchool schools sid = some school →
      school.isAdoptedByUser uid = false →
      ledgerHas ledger uid sid = false →
      school.adopters.length < MAX_ADOPTERS →
      (adoptPost now uid body rl schools ledger user).resp.status = 201 ∧
      (adoptPost now2 uid body rl2 (adoptPost now uid body rl schools ledger user).schools
        (adoptPost now uid body rl schools ledger user).ledger user2).resp.status = 409 ∧
      (adoptPost now2 uid body rl2 (adoptPost now uid body rl schools ledger user).schools
        (adoptPost now uid body rl schools ledger user).ledger user2).resp.code =
        some "ALREADY_ADOPTED" ∧
      (adoptPost now2 uid body rl2 (adoptPost now uid body rl schools ledger user).schools
        (adoptPost now uid body rl schools ledger user).ledger user2).schools =
        (adoptPost now uid body rl schools ledger user).schools ∧
      (adoptPost now2 uid body rl2 (adoptPost now uid body rl schools ledger user).schools
        (adoptPost now uid body rl schools ledger user).ledger user2).ledger =
        (adoptPost now uid body rl schools ledger user).ledger ∧
      (adoptPost now2 uid body rl2 (adoptPost now uid body rl schools ledger user).schools
        (adoptPost now uid body rl schools ledger user).ledger user2).user = user2) := by
  constructor
  · intro s u t now h
    rw [School.addAdopter, if_pos h]
  · intro now now2 uid body rl rl2 schools ledger user user2 sid ty school
      h1 h9 h2 h3 h4 h5 h6 h7 h8
    have hadd := addAdopter_success_eq school uid ty now h6 h8
    have hf1 : adoptPost now uid body rl schools ledger user =
        { resp := { status := 201, code := none, retryAfter := none,
                    totalAdopters := some (addedSchool school uid ty now).adopters.length,
                    adoptionCount := some (addedSchool school uid ty now).adoptionCount },
          rl := some (checkRateLimit rl now DEFAULT_WINDOW_MS 10).2.2,
          schools := updateSchools schools sid (addedSchool school uid ty now),
          ledger := ledger ++ [{ userId := uid, schoolId := sid, adoptionType := ty }],
          user := user.updateStreak now } := by
      simp [adoptPost, h1, h2, h3, h4, h5, h6, h7, hadd]
    have hstat2 : ((addedSchool school uid ty now).status == SchoolStatus.archived) = false :=
      (findSchool_pred h5).2
    have hfind2 := findSchool_updateSchools schools sid school
      (addedSchool school uid ty now) h5 rfl hstat2
    have hadopted2 := isAdoptedByUser_addedSchool school uid ty now
    have hf2 : adoptPost now2 uid body rl2
        (updateSchools schools sid (addedSchool school uid ty now))
        (ledger ++ [{ userId := uid, schoolId := sid, adoptionType := ty }]) user2 =
        { resp := { status := 409, code := some "ALREADY_ADOPTED", retryAfter := none,
                    totalAdopters := none, adoptionCount := none },
          rl := some (checkRateLimit rl2 now2 DEFAULT_WINDOW_MS 10).2.2,
          schools := updateSchools schools sid (addedSchool school uid ty now),
          ledger := ledger ++ [{ userId := uid, schoolId := sid, adoptionType := ty }],
          user := user2 } := by
      simp [adoptPost, h9, h2, h3, h4, hfind2, hadopted2]
    have hs1 : (adoptPost now uid body rl schools ledger user).schools =
        updateSchools schools sid (addedSchool school uid ty now) := by rw [hf1]
    have hl1 : (adoptPost now uid body rl schools ledger user).ledger =
        ledger ++ [{ userId := uid, schoolId := sid, adoptionType := ty }] := by rw [hf1]
    refine ⟨by rw [hf1], ?_, ?_, ?_, ?_, ?_⟩ <;> rw [hs1, hl1, hf2]
/-- Witness for C3 at concrete inputs: user 1 adopts the fresh school at
time 0 (201), then repeats the identical request at time 1 and receives
409 ALREADY_ADOPTED with the school collection and ledger unchanged. -/
theorem c3_already_adopted_conflict_witness :
    (adoptPost 0 1 body0 none [freshSchool] [] user0).resp.status = 201 ∧
    (adoptPost 1 1 body0 none (adoptPost 0 1 body0 none [freshSchool] [] user0).schools
      (adoptPost 0 1 body0 none [freshSchool] [] user0).ledger user0).resp.status = 409 ∧
    (adoptPost 1 1 body0 none (adoptPost 0 1 body0 none [freshSchool] [] user0).schools
      (adoptPost 0 1 body0 none [freshSchool] [] user0).ledger user0).resp.code =
      some "ALREADY_ADOPTED" ∧
    (adoptPost 1 1 body0 none (adoptPost 0 1 body0 none [freshSchool] [] user0).schools
      (adoptPost 0 1 body0 none [freshSchool] [] user0).ledger user0).schools =
      (adoptPost 0 1 body0 none [freshSchool] [] user0).schools ∧
    (adoptPost 1 1 body0 none (adoptPost 0 1 body0 none [freshSchool] [] user0).schools
      (adoptPost 0 1 body0 none [freshSchool] [] user0).ledger user0).ledger =
      (adoptPost 0 1 body0 none [freshSchool] [] user0).ledger ∧
    (adoptPost 1 1 body0 none (adoptPost 0 1 body0 none [freshSchool] [] user0).schools
      (adoptPost 0 1 body0 none [freshSchool] [] user0).ledger user0).user = user0 :=
  c3_already_adopted_conflict.2 0 1 1 body0 none none [freshSchool] [] user0 user0
    schoolId0 .prayer freshSchool (by decide) (by decide) rfl (by decide) (by decide)
    (by decide) (by decide) (by decide) (by decide)
/-- C6 counterexample: a concrete adoption attempt in which the ledger
insert succeeds and the registry mutation then fails (the school is at
the 500-adopter capacity).  The handler surfaces the generic
SERVER_ERROR code, not a distinguishable PARTIAL_FAILURE code, while the
ledger keeps the inserted row. -/
theorem c6_counterexample_generic_error :
    (adoptPost 0 600 body0 none [school500] [] user0).resp.status = 500 ∧
    (adoptPost 0 600 body0 none [school500] [] user0).resp.code = some "SERVER_ERROR" ∧
    (adoptPost 0 600 body0 none [school500] [] user0).resp.code ≠ some "PARTIAL_FAILURE" ∧
    (adoptPost 0 600 body0 none [school500] [] user0).ledger =
      [{ userId := 600, schoolId := schoolId0, adoptionType := AdoptionType.prayer }] := by
  decide
/-- C6 amended: when the ledger insert succeeds and the subsequent
registry mutation fails (adopter limit), the workflow does not roll back
the ledger insert, but the surfaced error is the generic SERVER_ERROR
envelope (status 500), not a distinguishable PARTIAL_FAILURE code; the
school collection is unchanged. -/
theorem c6_partial_failure_amended (now uid : Nat) (body : AdoptBody) (rl : Option RLEntry)
    (schools : List School) (ledger : List LedgerRow) (user : User)
    (sid : String) (ty : AdoptionType) (school : School)
    (h1 : (checkRateLimit rl now DEFAULT_WINDOW_MS 10).1 = true)
    (h2 : body.schoolId = some sid)
    (h3 : isValidObjectId sid = true)
    (h4 : parseAdoptionType (effectiveTypeString body.adoptionType) = some ty)
    (h5 : findSchool schools sid = some school)
    (h6 : school.isAdoptedByUser uid = false)
    (h7 : ledgerHas ledger uid sid = false)
    (hfull : MAX_ADOPTERS ≤ school.adopters.length) :
    (adoptPost now uid body rl schools ledger user).resp.status = 500 ∧
    (adoptPost now uid body rl schools ledger user).resp.code = some "SERVER_ERROR" ∧
    (adoptPost now uid body rl schools ledger user).resp.code ≠ some "PARTIAL_FAILURE" ∧
    (adoptPost now uid body rl schools ledger user).ledger =
      ledger ++ [{ userId := uid, schoolId := sid, adoptionType := ty }] ∧
    (adoptPost now uid body rl schools ledger user).schools = schools := by
  have hadd := addAdopter_limit_eq school uid ty now h6 hfull
  have hf : adoptPost now uid body rl schools ledger user =
      { resp := { status := 500, code := some "SERVER_ERROR", retryAfter := none,
                  totalAdopters := none, adoptionCount := none },
        rl := some (checkRateLimit rl now DEFAULT_WINDOW_MS 10).2.2,
        schools := schools,
        ledger := ledger ++ [{ userId := uid, schoolId := sid, adoptionType := ty }],
        user := user } := by
    simp [adoptPost, h1, h2, h3, h4, h5, h6, h7, hadd]
  rw [hf]
  exact ⟨rfl, rfl,
    (show (some "SERVER_ERROR" : Option String) ≠ some "PARTIAL_FAILURE" by decide), rfl, rfl⟩
/-- Witness for the C6 amended theorem at the concrete at-capacity
school. -/
theorem c6_partial_failure_amended_witness :
    (adoptPost 0 600 body0 none [school500] [] user0).resp.status = 500 ∧
    (adoptPost 0 600 body0 none [school500] [] user0).resp.code = some "SERVER_ERROR" ∧
    (adoptPost 0 600 body0 none [school500] [] user0).resp.code ≠ some "PARTIAL_FAILURE" ∧
    (adoptPost 0 600 body0 none [school500] [] user0).ledger =
      [] ++ [{ userId := 600, schoolId := schoolId0, adoptionType := AdoptionType.prayer }] ∧
    (adoptPost 0 600 body0 none [school500] [] user0).schools = [school500] :=
  c6_partial_failure_amended 0 600 body0 none [school500] [] user0 schoolId0 .prayer school500
    (by decide) rfl (by decide) (by decide) (by decide) (by decide) (by decide) (by decide)
/-- C9 counterexample: a request over the budget receives 429 with code
RATE_LIMIT_EXCEEDED but no retry-after hint in the response, and the
other POST /adoptions handler (src/api/adoptions/index.js) serves a 201
regardless of an arbitrarily exceeded rate-limit state, so not every
adoption attempt is rate-limited. -/
theorem c9_counterexample_no_retry_hint :
    (adoptPost 0 1 body0 (some rl10) [freshSchool] [] user0).resp.status = 429 ∧
    (adoptPost 0 1 body0 (some rl10) [freshSchool] [] user0).resp.code =
      some "RATE_LIMIT_EXCEEDED" ∧
    (adoptPost 0 1 body0 (some rl10) [freshSchool] [] user0).resp.retryAfter = none ∧
    (adoptPostLegacy 0 1 body0 (some { count := 1000000, resetAt := 1000000000 })
      [freshSchool] [] user0).resp.status = 201 := by
  decide
/-- C9 amended: the adoptions POST handler of src/api/journal/[id].js
applies the per-user fixed-window counter (10 per 15 minutes) before any
step of the workflow: an over-budget request receives 429 with code
RATE_LIMIT_EXCEEDED and no retry-after hint, whatever the body, and no
state changes; the handler of src/api/adoptions/index.js applies no rate
limit, its result being independent of the rate-limit state. -/
theorem c9_rate_limited_amended (now uid : Nat) (body : AdoptBody) (e : RLEntry)
    (schools : List School) (ledger : List LedgerRow) (user : User)
    (hwin : ¬ e.resetAt < now)
    (hcount : 10 ≤ e.count) :
    (checkRateLimit (some e) now DEFAULT_WINDOW_MS 10).1 = false ∧
    (adoptPost now uid body (some e) schools ledger user).resp.status = 429 ∧
    (adoptPost now uid body (some e) schools ledger user).resp.code =
      some "RATE_LIMIT_EXCEEDED" ∧
    (adoptPost now uid body (some e) schools ledger user).resp.retryAfter = none ∧
    (adoptPost now uid body (some e) schools ledger user).schools = schools ∧
    (adoptPost now uid body (some e) schools ledger user).ledger = ledger ∧
    (adoptPost now uid body (some e) schools ledger user).user = user ∧
    (∀ rl1 rl2 : Option RLEntry,
      adoptPostLegacy now uid body rl1 schools ledger user =
        adoptPostLegacy now uid body rl2 schools ledger user) := by
  have hrl : (checkRateLimit (some e) now DEFAULT_WINDOW_MS 10).1 = false := by
    unfold checkRateLimit
    dsimp only
    rw [if_neg hwin]
    exact decide_eq_false (by omega)
  have hf : adoptPost now uid body (some e) schools ledger user =
      { resp := { status := 429, code := some "RATE_LIMIT_EXCEEDED", retryAfter := none,
                  totalAdopters := none, adoptionCount := none },
        rl := some (checkRateLimit (some e) now DEFAULT_WINDOW_MS 10).2.2,
        schools := schools, ledger := ledger, user := user } := by
    simp [adoptPost, hrl]
  rw [hf]
  exact ⟨hrl, rfl, rfl, rfl, rfl, rfl, rfl, fun rl1 rl2 => rfl⟩
/-- Witness for the C9 amended theorem at the concrete over-budget
entry. -/
theorem c9_rate_limited_amended_witness :
    (checkRateLimit (some rl10) 0 DEFAULT_WINDOW_MS 10).1 = false ∧
    (adoptPost 0 1 body0 (some rl10) [freshSchool] [] user0).resp.status = 429 ∧
    (adoptPost 0 1 body0 (some rl10) [freshSchool] [] user0).resp.code =
      some "RATE_LIMIT_EXCEEDED" ∧
    (adoptPost 0 1 body0 (some rl10) [freshSchool] [] user0).resp.retryAfter = none ∧
    (adoptPost 0 1 body0 (some rl10) [freshSchool] [] user0).schools = [freshSchool] ∧
    (adoptPost 0 1 body0 (some rl10) [freshSchool] [] user0).ledger = [] ∧
    (adoptPost 0 1 body0 (some rl10) [freshSchool] [] user0).user = user0 ∧
    adoptPostLegacy 0 1 body0 none [freshSchool] [] user0 =
      adoptPostLegacy 0 1 body0 (some rl10) [freshSchool] [] user0 := by
  have h := c9_rate_limited_amended 0 1 body0 rl10 [freshSchool] [] user0
    (by decide) (by decide)
  exact ⟨h.1, h.2.1, h.2.2.1, h.2.2.2.1, h.2.2.2.2.1, h.2.2.2.2.2.1, h.2.2.2.2.2.2.1,
    h.2.2.2.2.2.2.2 none (some rl10)⟩
end CampusRevival
